import Mathlib

/-!
The replication cycle of `simulation.cc` (signal_pref).

A shallow embedding of the signal/preference simulation and the properties of
its update step.

Conventions of the embedding.

* `float` and `double` are the rationals `ℚ` with exact arithmetic: rounding and
  the narrowing of `double` results into the `float` fields are not modelled.
* `int generation` is an `Int`; signed overflow is not modelled.
* The C library generator is the sequence of values that the successive calls
  of `rand()` return (`RandState`); every function that calls `rand()` takes
  the state and returns the state that is left.
* `RAND_MAX` comes from `<cstdlib>` and is a parameter of every function that
  uses it.  The population size, the macro `N` of the source, is a parameter
  `n` of the functions that use it; `N` is the value the source gives it.
* `recombine` leaves fields of its local `recombinant` unassigned (always
  `generation`, and the value of a locus that is not inherited).  The contents
  the local starts with are a parameter `uninit`.
* Indexing a vector out of bounds and `rand() % 0` have no defined result: the
  update step returns `none` there.
* Output is not modelled: `print_info` returns the five means it writes, and
  `run_updates` is the loop of `main` without its periodic report.
-/

namespace SignalPref

/-! ## Constants of the source -/

/-- Population size. -/
def N : Nat := 100

def U_PREF_POS : ℚ := 1
def U_PREF_VALUE : ℚ := 1
def U_SIGNAL_POS : ℚ := 1
def U_SIGNAL_VALUE : ℚ := 1

def INIT_PREF_POS : ℚ := 1 / 2
def INIT_PREF_VALUE : ℚ := 1 / 2

def INIT_SIGNAL_POS : ℚ := 1 / 2
def INIT_SIGNAL_VALUE : ℚ := 1 / 2

def LOVE_SLOPE : ℚ := -8

def POS_MUT_EFFECT : ℚ := 1 / 100
def VALUE_MUT_EFFECT : ℚ := 1 / 10

/-- Number of replication attempts to perform. -/
def UPDATES : Nat := 10000000

/-! ## Data model -/

structure organism where
  pref_pos : ℚ
  pref_value : ℚ
  signal_pos : ℚ
  signal_value : ℚ
  generation : Int
deriving DecidableEq

/-! ## Random functions -/

/-- The values that the successive calls of `rand()` will return. -/
abbrev RandState := Nat → Nat

/-- One call of `rand()`: the value returned and the state left. -/
def rand (g : RandState) : Nat × RandState :=
  (g 0, fun i => g (i + 1))

/-- The state left after `k` calls of `rand()`. -/
def skip (k : Nat) (g : RandState) : RandState :=
  fun i => g (i + k)

/-- Every value of the sequence is one `rand()` can return. -/
def InRange (RAND_MAX : Nat) (g : RandState) : Prop :=
  ∀ i, g i ≤ RAND_MAX

/-- `rand() % N`; undefined for `N = 0`. -/
def random_pos (n : Nat) (g : RandState) : Option (Nat × RandState) :=
  if n = 0 then none else some ((rand g).1 % n, (rand g).2)

/-- `(double)rand() / RAND_MAX`. -/
def rand_0_to_1 (RAND_MAX : Nat) (g : RandState) : ℚ × RandState :=
  (((rand g).1 : ℚ) / (RAND_MAX : ℚ), (rand g).2)

/-! ## Reproduction functions -/

def is_inside (pos start «end» : ℚ) : Bool :=
  if start < «end» then
    decide (pos > start) && decide (pos < «end»)
  else
    decide (pos > start) || decide (pos < «end»)

def prob_love (parent_1 parent_2 : organism) : ℚ :=
  let abs_diff := |parent_1.pref_value - parent_2.signal_value|
  let prob := LOVE_SLOPE * abs_diff + 1
  if prob > 0 then prob else 0

def should_recombine (RAND_MAX : Nat) (parent_1 parent_2 : organism)
    (g : RandState) : Bool × RandState :=
  let prob_1_loves_2 := prob_love parent_1 parent_2
  let prob_2_loves_1 := prob_love parent_2 parent_1
  let u := rand_0_to_1 RAND_MAX g
  (decide (u.1 < prob_1_loves_2 * prob_2_loves_1), u.2)

/-- The crossover interval `(crossover_start, crossover_end)` that `recombine`
draws, and the state left. -/
def crossover (RAND_MAX : Nat) (g : RandState) : (ℚ × ℚ) × RandState :=
  let s := rand_0_to_1 RAND_MAX g
  let z := rand_0_to_1 RAND_MAX s.2
  let crossover_start := s.1
  let crossover_size := z.1
  let crossover_end := crossover_start + crossover_size
  ((crossover_start, if crossover_end > 1 then crossover_end - 1 else crossover_end), z.2)

/-- The four assignments of `recombine` for a given crossover interval;
`uninit` is what the local `recombinant` holds when it is declared. -/
def recombine_at (uninit parent_1 parent_2 : organism)
    (crossover_start crossover_end : ℚ) : organism :=
  let recombinant : organism := { uninit with pref_pos := -1, signal_pos := -1 }
  let recombinant :=
    if is_inside parent_1.pref_pos crossover_start crossover_end then
      { recombinant with pref_pos := parent_1.pref_pos, pref_value := parent_1.pref_value }
    else recombinant
  let recombinant :=
    if is_inside parent_1.signal_pos crossover_start crossover_end then
      { recombinant with signal_pos := parent_1.signal_pos,
                         signal_value := parent_1.signal_value }
    else recombinant
  let recombinant :=
    if !is_inside parent_2.pref_pos crossover_start crossover_end then
      { recombinant with pref_pos := parent_2.pref_pos, pref_value := parent_2.pref_value }
    else recombinant
  let recombinant :=
    if !is_inside parent_2.signal_pos crossover_start crossover_end then
      { recombinant with signal_pos := parent_2.signal_pos,
                         signal_value := parent_2.signal_value }
    else recombinant
  recombinant

def recombine (RAND_MAX : Nat) (uninit parent_1 parent_2 : organism)
    (g : RandState) : organism × RandState :=
  let c := crossover RAND_MAX g
  (recombine_at uninit parent_1 parent_2 c.1.1 c.1.2, c.2)

def mutate_pos (RAND_MAX : Nat) (pos : ℚ) (g : RandState) : ℚ × RandState :=
  let u := rand_0_to_1 RAND_MAX g
  let new_pos := pos + (u.1 - 1 / 2) * POS_MUT_EFFECT
  if new_pos < 0 then (new_pos + 1, u.2)
  else if new_pos > 1 then (new_pos - 1, u.2)
  else (new_pos, u.2)

def mutate_value (RAND_MAX : Nat) (value : ℚ) (g : RandState) : ℚ × RandState :=
  let u := rand_0_to_1 RAND_MAX g
  (value + (u.1 - 1 / 2) * VALUE_MUT_EFFECT, u.2)

/-- The loop `for (i = 0; i < k; i++) recombinant = recombine(recombinant, recombinant)`;
round `i` starts its local from `uninit (i + 1)`. -/
def self_recombine (RAND_MAX : Nat) (uninit : Nat → organism) :
    Nat → organism → RandState → organism × RandState
  | 0, recombinant, g => (recombinant, g)
  | k + 1, recombinant, g =>
    let r := self_recombine RAND_MAX uninit k recombinant g
    recombine RAND_MAX (uninit (k + 1)) r.1 r.1 r.2

/-- The four mutation steps and the generation update applied to the organism
just stored in `pop[child_pos]` (lines 175 to 188). -/
def mutate_child (RAND_MAX : Nat) (parent_1 child : organism)
    (g : RandState) : organism × RandState :=
  let u := rand_0_to_1 RAND_MAX g
  let s : organism × RandState :=
    if u.1 < U_PREF_POS then
      let m := mutate_pos RAND_MAX child.pref_pos u.2
      ({ child with pref_pos := m.1 }, m.2)
    else (child, u.2)
  let u := rand_0_to_1 RAND_MAX s.2
  let s : organism × RandState :=
    if u.1 < U_PREF_VALUE then
      let m := mutate_value RAND_MAX s.1.pref_value u.2
      ({ s.1 with pref_value := m.1 }, m.2)
    else (s.1, u.2)
  let u := rand_0_to_1 RAND_MAX s.2
  let s : organism × RandState :=
    if u.1 < U_SIGNAL_POS then
      let m := mutate_pos RAND_MAX s.1.signal_pos u.2
      ({ s.1 with signal_pos := m.1 }, m.2)
    else (s.1, u.2)
  let u := rand_0_to_1 RAND_MAX s.2
  let s : organism × RandState :=
    if u.1 < U_SIGNAL_VALUE then
      let m := mutate_value RAND_MAX s.1.signal_value u.2
      ({ s.1 with signal_value := m.1 }, m.2)
    else (s.1, u.2)
  ({ s.1 with generation := parent_1.generation + 1 }, s.2)

/-! ## Population functions -/

def create_population (n : Nat) : List organism :=
  List.replicate n
    { pref_pos := INIT_PREF_POS, pref_value := INIT_PREF_VALUE,
      signal_pos := INIT_SIGNAL_POS, signal_value := INIT_SIGNAL_VALUE, generation := 0 }

/-- One update step.  `none` where the source has no defined behaviour
(`n = 0`, or an index outside `pop`). -/
def replicate_next_organism (n RAND_MAX : Nat) (uninit : Nat → organism)
    (pop : List organism) (g : RandState) : Option (List organism × RandState) :=
  match random_pos n g with
  | none => none
  | some (parent_1_pos, g) =>
  match random_pos n g with
  | none => none
  | some (parent_2_pos, g) =>
  match random_pos n g with
  | none => none
  | some (child_pos, g) =>
  match pop[parent_1_pos]?, pop[parent_2_pos]? with
  | some parent_1, some parent_2 =>
    if parent_1.pref_pos < 0 ∨ parent_1.signal_pos < 0
        ∨ parent_2.pref_pos < 0 ∨ parent_2.signal_pos < 0 then
      some (pop, g)
    else
      let sr := should_recombine RAND_MAX parent_1 parent_2 g
      if !sr.1 then
        some (pop, sr.2)
      else
        let r := recombine RAND_MAX (uninit 0) parent_1 parent_2 sr.2
        let r := self_recombine RAND_MAX uninit 100 r.1 r.2
        if r.1.pref_pos < 0 ∨ r.1.signal_pos < 0 then
          some (pop, r.2)
        else if child_pos < pop.length then
          let c := mutate_child RAND_MAX parent_1 r.1 r.2
          some (pop.set child_pos c.1, c.2)
        else none
  | _, _ => none

/-! ## Concrete inputs used below -/

/-- An organism whose own signal is far from its own preference. -/
def unmatched : organism :=
  { pref_pos := 1 / 2, pref_value := 0, signal_pos := 1 / 2, signal_value := 1, generation := 0 }

/-- An organism whose preference locus sits at 0.995. -/
def edge : organism :=
  { pref_pos := 199 / 200, pref_value := 1 / 2, signal_pos := 1 / 2, signal_value := 1 / 2,
    generation := 0 }

/-- Two organisms whose cross-differences between preference value and signal value
are both exactly 0.2. -/
def choosy_1 : organism :=
  { pref_pos := 1 / 2, pref_value := 1 / 2, signal_pos := 1 / 2, signal_value := 7 / 10,
    generation := 0 }

def choosy_2 : organism :=
  { pref_pos := 1 / 2, pref_value := 9 / 10, signal_pos := 1 / 2, signal_value := 7 / 10,
    generation := 0 }

/-! ## Update step: the recombinant, the write, the loop of `main` -/

/-- The recombinant of the update step (lines 165 to 167): `recombine(parent_1, parent_2)`
followed by the 100 rounds of self-recombination, from the state `g` that
`should_recombine` leaves. -/
def recombinant_of (RAND_MAX : Nat) (uninit : Nat → organism) (parent_1 parent_2 : organism)
    (g : RandState) : organism × RandState :=
  let r := recombine RAND_MAX (uninit 0) parent_1 parent_2 g
  self_recombine RAND_MAX uninit 100 r.1 r.2

/-- The update step on `pop` with draws `g` reads `parent_1` and `parent_2`, gets past
its three early returns and reaches the assignment `pop[child_pos] = recombinant`. -/
structure Writes (n RAND_MAX : Nat) (uninit : Nat → organism) (pop : List organism)
    (g : RandState) (parent_1 parent_2 : organism) : Prop where
  size_pos : 0 < n
  read_1 : pop[g 0 % n]? = some parent_1
  read_2 : pop[g 1 % n]? = some parent_2
  child_lt : g 2 % n < pop.length
  present : ¬ (parent_1.pref_pos < 0 ∨ parent_1.signal_pos < 0
    ∨ parent_2.pref_pos < 0 ∨ parent_2.signal_pos < 0)
  accepted : (should_recombine RAND_MAX parent_1 parent_2 (skip 3 g)).1 = true
  inherited : ¬ ((recombinant_of RAND_MAX uninit parent_1 parent_2 (skip 4 g)).1.pref_pos < 0
    ∨ (recombinant_of RAND_MAX uninit parent_1 parent_2 (skip 4 g)).1.signal_pos < 0)

/-- The first `k` iterations of the loop of `main`: `k` calls of
`replicate_next_organism` on the same population and generator; `uninit s` gives
the locals of the call number `s`. -/
def run_updates (n RAND_MAX : Nat) (uninit : Nat → Nat → organism) :
    Nat → List organism → RandState → Option (List organism × RandState)
  | 0, pop, g => some (pop, g)
  | k + 1, pop, g =>
    match run_updates n RAND_MAX uninit k pop g with
    | none => none
    | some (pop', g') => replicate_next_organism n RAND_MAX (uninit k) pop' g'

/-! ## General list functions and the report -/

/-- The accumulation loop of `sum`. -/
def sum {T : Type} [Add T] [Zero T] (list : List T) : T :=
  list.foldl (fun acc x => acc + x) 0

/-- `(double)sum(list) / list.size()`; `to_double` is the conversion `(double)`. -/
def mean {T : Type} [Add T] [Zero T] (to_double : T → ℚ) (list : List T) : ℚ :=
  to_double (sum list) / (list.length : ℚ)

def get_generations (pop : List organism) : List Int :=
  pop.map fun o => o.generation

def get_pref_pos (pop : List organism) : List ℚ :=
  pop.map fun o => o.pref_pos

def get_pref_values (pop : List organism) : List ℚ :=
  pop.map fun o => o.pref_value

def get_signal_pos (pop : List organism) : List ℚ :=
  pop.map fun o => o.signal_pos

def get_signal_values (pop : List organism) : List ℚ :=
  pop.map fun o => o.signal_value

/-- Both locus positions of the organism lie in the closed interval [0,1]. -/
def InUnit (o : organism) : Prop :=
  0 ≤ o.pref_pos ∧ o.pref_pos ≤ 1 ∧ 0 ≤ o.signal_pos ∧ o.signal_pos ≤ 1

/-- Draws whose first two values give `crossover_start + crossover_size = 1` for
`RAND_MAX = 32767`. -/
def closing_draws : RandState :=
  fun i => if i = 0 then 1 else 32766

/-! ## Helper lemmas -/

theorem rand_skip (g : RandState) : (rand g).2 = skip 1 g := rfl

theorem skip_skip (a b : Nat) (g : RandState) : skip a (skip b g) = skip (b + a) g := by
  funext i
  simp only [skip, Nat.add_assoc, Nat.add_comm a b]

theorem random_pos_eq {n : Nat} (hn : 0 < n) (g : RandState) :
    random_pos n g = some (g 0 % n, skip 1 g) := by
  unfold random_pos
  rw [if_neg (by omega)]
  rfl

/-- The body of the update step once the three indices are drawn and the two
parents are read. -/
theorem replicate_next_organism_eq {n : Nat} (RAND_MAX : Nat) (uninit : Nat → organism)
    {pop : List organism} (g : RandState) {p1 p2 : organism} (hn : 0 < n)
    (h1 : pop[g 0 % n]? = some p1) (h2 : pop[g 1 % n]? = some p2) :
    replicate_next_organism n RAND_MAX uninit pop g =
      if p1.pref_pos < 0 ∨ p1.signal_pos < 0 ∨ p2.pref_pos < 0 ∨ p2.signal_pos < 0 then
        some (pop, skip 3 g)
      else if !(should_recombine RAND_MAX p1 p2 (skip 3 g)).1 then
        some (pop, (should_recombine RAND_MAX p1 p2 (skip 3 g)).2)
      else
        let r := recombine RAND_MAX (uninit 0) p1 p2 (should_recombine RAND_MAX p1 p2 (skip 3 g)).2
        let r := self_recombine RAND_MAX uninit 100 r.1 r.2
        if r.1.pref_pos < 0 ∨ r.1.signal_pos < 0 then some (pop, r.2)
        else if g 2 % n < pop.length then
          some (pop.set (g 2 % n) (mutate_child RAND_MAX p1 r.1 r.2).1,
            (mutate_child RAND_MAX p1 r.1 r.2).2)
        else none := by
  have e1 : (skip 1 g) 0 = g 1 := rfl
  have e2 : (skip 1 (skip 1 g)) 0 = g 2 := rfl
  have e3 : skip 1 (skip 1 (skip 1 g)) = skip 3 g := rfl
  simp only [replicate_next_organism, random_pos_eq hn, e1, e2, e3, h1, h2]

/-- The update step has a result only when the population size is positive and
both parent indices are inside the population. -/
theorem replicate_next_organism_some {n RAND_MAX : Nat} {uninit : Nat → organism}
    {pop : List organism} {g : RandState} {res : List organism × RandState}
    (h : replicate_next_organism n RAND_MAX uninit pop g = some res) :
    0 < n ∧ ∃ p1 p2, pop[g 0 % n]? = some p1 ∧ pop[g 1 % n]? = some p2 := by
  rcases Nat.eq_zero_or_pos n with hn | hn
  · subst hn
    simp [replicate_next_organism, random_pos] at h
  · refine ⟨hn, ?_⟩
    have e1 : (skip 1 g) 0 = g 1 := rfl
    simp only [replicate_next_organism, random_pos_eq hn, e1] at h
    cases h1 : pop[g 0 % n]? with
    | none => simp [h1] at h
    | some p1 =>
      cases h2 : pop[g 1 % n]? with
      | none => simp [h1, h2] at h
      | some p2 => exact ⟨p1, p2, rfl, rfl⟩

/-- A failed mate selection ends the update step with the population as it was. -/
theorem replicate_of_not_should_recombine {n : Nat} (RAND_MAX : Nat)
    (uninit : Nat → organism) {pop : List organism} (g : RandState) {p1 p2 : organism}
    (hn : 0 < n) (h1 : pop[g 0 % n]? = some p1) (h2 : pop[g 1 % n]? = some p2)
    (hs : (should_recombine RAND_MAX p1 p2 (skip 3 g)).1 = false) :
    (replicate_next_organism n RAND_MAX uninit pop g).map Prod.fst = some pop := by
  rw [replicate_next_organism_eq RAND_MAX uninit g hn h1 h2]
  split_ifs <;> simp_all

/-- Whatever the update step returns has the length of the population it got. -/
theorem replicate_length {n RAND_MAX : Nat} {uninit : Nat → organism}
    {pop : List organism} {g : RandState} {res : List organism × RandState}
    (h : replicate_next_organism n RAND_MAX uninit pop g = some res) :
    res.1.length = pop.length := by
  obtain ⟨hn, p1, p2, h1, h2⟩ := replicate_next_organism_some h
  rw [replicate_next_organism_eq RAND_MAX uninit g hn h1 h2] at h
  dsimp only at h
  split_ifs at h <;> simp only [Option.some.injEq] at h <;> subst h <;> simp

/-- With a population of `n ≥ 1` organisms the update step has a result. -/
theorem replicate_total {n : Nat} (RAND_MAX : Nat) (uninit : Nat → organism)
    {pop : List organism} (g : RandState) (hn : 0 < n) (hlen : pop.length = n) :
    ∃ res, replicate_next_organism n RAND_MAX uninit pop g = some res := by
  subst hlen
  have b0 : g 0 % pop.length < pop.length := Nat.mod_lt _ hn
  have b1 : g 1 % pop.length < pop.length := Nat.mod_lt _ hn
  have b2 : g 2 % pop.length < pop.length := Nat.mod_lt _ hn
  rw [replicate_next_organism_eq RAND_MAX uninit g hn
    (List.getElem?_eq_getElem b0) (List.getElem?_eq_getElem b1)]
  dsimp only
  split_ifs <;> exact ⟨_, rfl⟩

theorem rand_0_to_1_snd (RAND_MAX : Nat) (g : RandState) :
    (rand_0_to_1 RAND_MAX g).2 = skip 1 g := rfl

theorem rand_0_to_1_fst (RAND_MAX : Nat) (g : RandState) :
    (rand_0_to_1 RAND_MAX g).1 = (g 0 : ℚ) / (RAND_MAX : ℚ) := rfl

theorem rand_0_to_1_nonneg (RAND_MAX : Nat) (g : RandState) :
    0 ≤ (rand_0_to_1 RAND_MAX g).1 := by
  rw [rand_0_to_1_fst]
  positivity

theorem should_recombine_snd (RAND_MAX : Nat) (p1 p2 : organism) (g : RandState) :
    (should_recombine RAND_MAX p1 p2 g).2 = skip 1 g := rfl

theorem crossover_snd (RAND_MAX : Nat) (g : RandState) :
    (crossover RAND_MAX g).2 = skip 2 g := rfl

theorem recombine_snd (RAND_MAX : Nat) (u p1 p2 : organism) (g : RandState) :
    (recombine RAND_MAX u p1 p2 g).2 = skip 2 g := rfl

/-- Recombining a genotype with itself returns its two loci, whatever the
interval; only `generation` is left as the local started. -/
theorem recombine_at_self (u G : organism) (s e : ℚ) :
    recombine_at u G G s e = { G with generation := u.generation } := by
  unfold recombine_at
  cases is_inside G.pref_pos s e <;> cases is_inside G.signal_pos s e <;> simp

theorem recombine_self_pos (RAND_MAX : Nat) (u G : organism) (g : RandState) :
    (recombine RAND_MAX u G G g).1.pref_pos = G.pref_pos
      ∧ (recombine RAND_MAX u G G g).1.pref_value = G.pref_value
      ∧ (recombine RAND_MAX u G G g).1.signal_pos = G.signal_pos
      ∧ (recombine RAND_MAX u G G g).1.signal_value = G.signal_value := by
  simp [recombine, recombine_at_self]

/-- The rounds of self-recombination keep the four trait fields and use two
draws each. -/
theorem self_recombine_eq (RAND_MAX : Nat) (uninit : Nat → organism) (k : Nat)
    (r : organism) (g : RandState) :
    self_recombine RAND_MAX uninit k r g =
      ({ r with generation := if k = 0 then r.generation else (uninit k).generation },
        skip (2 * k) g) := by
  induction k with
  | zero => rfl
  | succ k ih =>
    simp only [self_recombine, ih, recombine, recombine_at_self, crossover_snd, skip_skip]
    simp [Nat.mul_succ]

theorem mutate_pos_snd (RAND_MAX : Nat) (p : ℚ) (g : RandState) :
    (mutate_pos RAND_MAX p g).2 = skip 1 g := by
  unfold mutate_pos
  dsimp only
  split_ifs <;> rfl

theorem mutate_value_snd (RAND_MAX : Nat) (v : ℚ) (g : RandState) :
    (mutate_value RAND_MAX v g).2 = skip 1 g := rfl

theorem is_inside_iff (pos start stop : ℚ) :
    is_inside pos start stop = true ↔
      if start < stop then start < pos ∧ pos < stop else start < pos ∨ pos < stop := by
  unfold is_inside
  split_ifs <;> simp

/-- The preference locus of a recombinant, by cases on the two containment tests. -/
theorem recombine_at_pref (u p1 p2 : organism) (s e : ℚ) :
    (is_inside p2.pref_pos s e = false →
        (recombine_at u p1 p2 s e).pref_pos = p2.pref_pos
          ∧ (recombine_at u p1 p2 s e).pref_value = p2.pref_value)
      ∧ (is_inside p2.pref_pos s e = true → is_inside p1.pref_pos s e = true →
        (recombine_at u p1 p2 s e).pref_pos = p1.pref_pos
          ∧ (recombine_at u p1 p2 s e).pref_value = p1.pref_value)
      ∧ (is_inside p2.pref_pos s e = true → is_inside p1.pref_pos s e = false →
        (recombine_at u p1 p2 s e).pref_pos = -1) := by
  unfold recombine_at
  cases is_inside p1.pref_pos s e <;> cases is_inside p1.signal_pos s e <;>
    cases is_inside p2.pref_pos s e <;> cases is_inside p2.signal_pos s e <;> simp

/-- The signal locus of a recombinant, by cases on the two containment tests. -/
theorem recombine_at_signal (u p1 p2 : organism) (s e : ℚ) :
    (is_inside p2.signal_pos s e = false →
        (recombine_at u p1 p2 s e).signal_pos = p2.signal_pos
          ∧ (recombine_at u p1 p2 s e).signal_value = p2.signal_value)
      ∧ (is_inside p2.signal_pos s e = true → is_inside p1.signal_pos s e = true →
        (recombine_at u p1 p2 s e).signal_pos = p1.signal_pos
          ∧ (recombine_at u p1 p2 s e).signal_value = p1.signal_value)
      ∧ (is_inside p2.signal_pos s e = true → is_inside p1.signal_pos s e = false →
        (recombine_at u p1 p2 s e).signal_pos = -1) := by
  unfold recombine_at
  cases is_inside p1.pref_pos s e <;> cases is_inside p1.signal_pos s e <;>
    cases is_inside p2.pref_pos s e <;> cases is_inside p2.signal_pos s e <;> simp

theorem prob_love_eq_max (X Y : organism) :
    prob_love X Y = max 0 (-8 * |X.pref_value - Y.signal_value| + 1) := by
  unfold prob_love LOVE_SLOPE
  dsimp only
  split_ifs with h
  · exact (max_eq_right (le_of_lt h)).symm
  · exact (max_eq_left (not_lt.mp h)).symm

theorem prob_love_eq_zero {X Y : organism} (h : 1 / 8 ≤ |X.pref_value - Y.signal_value|) :
    prob_love X Y = 0 := by
  rw [prob_love_eq_max]
  exact max_eq_left (by linarith)

/-- No draw is below a joint probability of zero. -/
theorem should_recombine_of_prob_zero (RAND_MAX : Nat) {A B : organism} (g : RandState)
    (h : prob_love A B * prob_love B A = 0) :
    (should_recombine RAND_MAX A B g).1 = false := by
  unfold should_recombine
  simp only [h, decide_eq_false_iff_not, not_lt]
  exact rand_0_to_1_nonneg RAND_MAX g

theorem rand_0_to_1_le_one (RAND_MAX : Nat) (g : RandState) (h : g 0 ≤ RAND_MAX) :
    (rand_0_to_1 RAND_MAX g).1 ≤ 1 := by
  rw [rand_0_to_1_fst]
  exact div_le_one_of_le₀ (by exact_mod_cast h) (by positivity)

/-- What `mutate_pos` does guarantee: from a position in [0,1] and a draw that
`rand()` can return, the result is in the closed interval [0,1]. -/
theorem mutate_pos_mem_Icc (RAND_MAX : Nat) (p : ℚ) (g : RandState) (h : g 0 ≤ RAND_MAX)
    (hp0 : 0 ≤ p) (hp1 : p ≤ 1) :
    0 ≤ (mutate_pos RAND_MAX p g).1 ∧ (mutate_pos RAND_MAX p g).1 ≤ 1 := by
  have u0 := rand_0_to_1_nonneg RAND_MAX g
  have u1 := rand_0_to_1_le_one RAND_MAX g h
  unfold mutate_pos POS_MUT_EFFECT
  dsimp only
  split_ifs with a b
  · exact ⟨by nlinarith, by linarith⟩
  · exact ⟨by linarith, by nlinarith⟩
  · exact ⟨by linarith, by linarith⟩

theorem recombinant_of_eq (RAND_MAX : Nat) (uninit : Nat → organism) (p1 p2 : organism)
    (g : RandState) :
    recombinant_of RAND_MAX uninit p1 p2 g =
      ({ (recombine RAND_MAX (uninit 0) p1 p2 g).1 with generation := (uninit 100).generation },
        skip 202 g) := by
  simp [recombinant_of, self_recombine_eq, recombine_snd, skip_skip]

/-- The update step in the case where it reaches the write. -/
theorem replicate_of_writes {n RAND_MAX : Nat} {uninit : Nat → organism}
    {pop : List organism} {g : RandState} {p1 p2 : organism}
    (w : Writes n RAND_MAX uninit pop g p1 p2) :
    replicate_next_organism n RAND_MAX uninit pop g =
      some (pop.set (g 2 % n)
          (mutate_child RAND_MAX p1 (recombinant_of RAND_MAX uninit p1 p2 (skip 4 g)).1
            (recombinant_of RAND_MAX uninit p1 p2 (skip 4 g)).2).1,
        (mutate_child RAND_MAX p1 (recombinant_of RAND_MAX uninit p1 p2 (skip 4 g)).1
            (recombinant_of RAND_MAX uninit p1 p2 (skip 4 g)).2).2) := by
  have hi := w.inherited
  have e4 : skip 1 (skip 3 g) = skip 4 g := rfl
  rw [replicate_next_organism_eq RAND_MAX uninit g w.size_pos w.read_1 w.read_2,
    if_neg w.present]
  simp only [w.accepted, should_recombine_snd, e4]
  unfold recombinant_of at hi
  dsimp only at hi ⊢
  rw [if_neg (by simp), if_neg hi, if_pos w.child_lt]
  rfl

theorem mutate_child_generation (RAND_MAX : Nat) (p1 c : organism) (g : RandState) :
    (mutate_child RAND_MAX p1 c g).1.generation = p1.generation + 1 := rfl

theorem mutate_child_pref_pos (RAND_MAX : Nat) (p1 c : organism) (g : RandState) :
    (mutate_child RAND_MAX p1 c g).1.pref_pos =
      if (rand_0_to_1 RAND_MAX g).1 < U_PREF_POS then
        (mutate_pos RAND_MAX c.pref_pos (skip 1 g)).1
      else c.pref_pos := by
  unfold mutate_child
  dsimp only
  split_ifs <;> rfl

theorem mutate_child_signal_pos (RAND_MAX : Nat) (p1 c : organism) (g : RandState) :
    ∃ m, (mutate_child RAND_MAX p1 c g).1.signal_pos = c.signal_pos
      ∨ (mutate_child RAND_MAX p1 c g).1.signal_pos
          = (mutate_pos RAND_MAX c.signal_pos (skip m g)).1 := by
  have aux : ∃ h : RandState, (∃ m, h = skip m g)
      ∧ ((mutate_child RAND_MAX p1 c g).1.signal_pos = c.signal_pos
        ∨ (mutate_child RAND_MAX p1 c g).1.signal_pos
            = (mutate_pos RAND_MAX c.signal_pos h).1) := by
    unfold mutate_child
    simp only [rand_0_to_1_snd, mutate_pos_snd, mutate_value_snd]
    split_ifs <;>
      first
        | exact ⟨g, ⟨0, rfl⟩, Or.inl rfl⟩
        | exact ⟨_, by simp only [skip_skip]; exact ⟨_, rfl⟩, Or.inr rfl⟩
  obtain ⟨h, ⟨m, rfl⟩, hh⟩ := aux
  exact ⟨m, hh⟩

theorem mutate_child_snd (RAND_MAX : Nat) (p1 c : organism) (g : RandState) :
    ∃ m, (mutate_child RAND_MAX p1 c g).2 = skip m g := by
  unfold mutate_child
  simp only [rand_0_to_1_snd, mutate_pos_snd, mutate_value_snd]
  split_ifs <;> simp only [skip_skip] <;> exact ⟨_, rfl⟩

theorem InRange_skip {RAND_MAX : Nat} {g : RandState} (h : InRange RAND_MAX g) (m : Nat) :
    InRange RAND_MAX (skip m g) :=
  fun i => h (i + m)

theorem recombine_at_pref_pos_cases (u p1 p2 : organism) (s e : ℚ) :
    (recombine_at u p1 p2 s e).pref_pos = p2.pref_pos
      ∨ (recombine_at u p1 p2 s e).pref_pos = p1.pref_pos
      ∨ (recombine_at u p1 p2 s e).pref_pos = -1 := by
  have h := recombine_at_pref u p1 p2 s e
  cases h2 : is_inside p2.pref_pos s e
  · exact Or.inl (h.1 h2).1
  · cases h1 : is_inside p1.pref_pos s e
    · exact Or.inr (Or.inr (h.2.2 h2 h1))
    · exact Or.inr (Or.inl (h.2.1 h2 h1).1)

theorem recombine_at_signal_pos_cases (u p1 p2 : organism) (s e : ℚ) :
    (recombine_at u p1 p2 s e).signal_pos = p2.signal_pos
      ∨ (recombine_at u p1 p2 s e).signal_pos = p1.signal_pos
      ∨ (recombine_at u p1 p2 s e).signal_pos = -1 := by
  have h := recombine_at_signal u p1 p2 s e
  cases h2 : is_inside p2.signal_pos s e
  · exact Or.inl (h.1 h2).1
  · cases h1 : is_inside p1.signal_pos s e
    · exact Or.inr (Or.inr (h.2.2 h2 h1))
    · exact Or.inr (Or.inl (h.2.1 h2 h1).1)

/-- The recombinant of the update step has the loci of the first recombination. -/
theorem recombinant_of_fields (RAND_MAX : Nat) (uninit : Nat → organism) (p1 p2 : organism)
    (g : RandState) :
    (recombinant_of RAND_MAX uninit p1 p2 g).1.pref_pos
        = (recombine RAND_MAX (uninit 0) p1 p2 g).1.pref_pos
      ∧ (recombinant_of RAND_MAX uninit p1 p2 g).1.pref_value
        = (recombine RAND_MAX (uninit 0) p1 p2 g).1.pref_value
      ∧ (recombinant_of RAND_MAX uninit p1 p2 g).1.signal_pos
        = (recombine RAND_MAX (uninit 0) p1 p2 g).1.signal_pos
      ∧ (recombinant_of RAND_MAX uninit p1 p2 g).1.signal_value
        = (recombine RAND_MAX (uninit 0) p1 p2 g).1.signal_value
      ∧ (recombinant_of RAND_MAX uninit p1 p2 g).2 = skip 202 g := by
  rw [recombinant_of_eq]
  exact ⟨rfl, rfl, rfl, rfl, rfl⟩

/-- A recombinant that passes the last guard carries positions of its parents. -/
theorem recombinant_of_InUnit {RAND_MAX : Nat} {uninit : Nat → organism} {p1 p2 : organism}
    {g : RandState} (h1 : InUnit p1) (h2 : InUnit p2)
    (hi : ¬ ((recombinant_of RAND_MAX uninit p1 p2 g).1.pref_pos < 0
      ∨ (recombinant_of RAND_MAX uninit p1 p2 g).1.signal_pos < 0)) :
    InUnit (recombinant_of RAND_MAX uninit p1 p2 g).1 := by
  obtain ⟨ep, -, es, -, -⟩ := recombinant_of_fields RAND_MAX uninit p1 p2 g
  rw [ep, es] at hi
  unfold InUnit at h1 h2 ⊢
  rw [ep, es]
  simp only [recombine] at hi ⊢
  push_neg at hi
  obtain ⟨hp, hs⟩ := hi
  have cp := recombine_at_pref_pos_cases (uninit 0) p1 p2 (crossover RAND_MAX g).1.1
    (crossover RAND_MAX g).1.2
  have cs := recombine_at_signal_pos_cases (uninit 0) p1 p2 (crossover RAND_MAX g).1.1
    (crossover RAND_MAX g).1.2
  refine ⟨hp, ?_, hs, ?_⟩
  · rcases cp with c | c | c
    · rw [c]; exact h2.2.1
    · rw [c]; exact h1.2.1
    · rw [c]; norm_num
  · rcases cs with c | c | c
    · rw [c]; exact h2.2.2.2
    · rw [c]; exact h1.2.2.2
    · rw [c]; norm_num

/-- Either the update step returns the population it was given, or it reaches the
write. -/
theorem replicate_cases {n RAND_MAX : Nat} {uninit : Nat → organism}
    {pop : List organism} {g : RandState} {res : List organism × RandState}
    (h : replicate_next_organism n RAND_MAX uninit pop g = some res) :
    (res.1 = pop ∧ ∃ m, res.2 = skip m g)
      ∨ ∃ p1 p2, Writes n RAND_MAX uninit pop g p1 p2 := by
  obtain ⟨hn, p1, p2, h1, h2⟩ := replicate_next_organism_some h
  have e4 : skip 1 (skip 3 g) = skip 4 g := rfl
  rw [replicate_next_organism_eq RAND_MAX uninit g hn h1 h2] at h
  by_cases hg : p1.pref_pos < 0 ∨ p1.signal_pos < 0 ∨ p2.pref_pos < 0 ∨ p2.signal_pos < 0
  · rw [if_pos hg] at h
    cases h
    exact Or.inl ⟨rfl, 3, rfl⟩
  rw [if_neg hg] at h
  cases hs : (should_recombine RAND_MAX p1 p2 (skip 3 g)).1
  · simp only [hs, Bool.not_false, if_true, Option.some.injEq] at h
    subst h
    exact Or.inl ⟨rfl, 4, rfl⟩
  simp only [hs, Bool.not_true, Bool.false_eq_true, if_false, should_recombine_snd, e4] at h
  have er : self_recombine RAND_MAX uninit 100
      (recombine RAND_MAX (uninit 0) p1 p2 (skip 4 g)).1
      (recombine RAND_MAX (uninit 0) p1 p2 (skip 4 g)).2
        = recombinant_of RAND_MAX uninit p1 p2 (skip 4 g) := rfl
  rw [er] at h
  by_cases hi : (recombinant_of RAND_MAX uninit p1 p2 (skip 4 g)).1.pref_pos < 0
      ∨ (recombinant_of RAND_MAX uninit p1 p2 (skip 4 g)).1.signal_pos < 0
  · rw [if_pos hi] at h
    cases h
    refine Or.inl ⟨rfl, 206, ?_⟩
    rw [(recombinant_of_fields RAND_MAX uninit p1 p2 (skip 4 g)).2.2.2.2, skip_skip]
  · rw [if_neg hi] at h
    by_cases hc : g 2 % n < pop.length
    · exact Or.inr ⟨p1, p2, ⟨hn, h1, h2, hc, hg, hs, hi⟩⟩
    · rw [if_neg hc] at h
      cases h

theorem mutate_child_InUnit {RAND_MAX : Nat} (p1 : organism) {c : organism} {g : RandState}
    (hc : InUnit c) (hg : InRange RAND_MAX g) :
    InUnit (mutate_child RAND_MAX p1 c g).1 := by
  obtain ⟨c1, c2, c3, c4⟩ := hc
  have hp : 0 ≤ (mutate_child RAND_MAX p1 c g).1.pref_pos
      ∧ (mutate_child RAND_MAX p1 c g).1.pref_pos ≤ 1 := by
    rw [mutate_child_pref_pos]
    split_ifs
    · exact mutate_pos_mem_Icc RAND_MAX c.pref_pos (skip 1 g) (InRange_skip hg 1 0) c1 c2
    · exact ⟨c1, c2⟩
  have hs : 0 ≤ (mutate_child RAND_MAX p1 c g).1.signal_pos
      ∧ (mutate_child RAND_MAX p1 c g).1.signal_pos ≤ 1 := by
    obtain ⟨m, h | h⟩ := mutate_child_signal_pos RAND_MAX p1 c g
    · rw [h]; exact ⟨c3, c4⟩
    · rw [h]
      exact mutate_pos_mem_Icc RAND_MAX c.signal_pos (skip m g) (InRange_skip hg m 0) c3 c4
  exact ⟨hp.1, hp.2, hs.1, hs.2⟩

/-- The population an update step that writes leaves behind. -/
theorem replicate_writes_fst {n RAND_MAX : Nat} {uninit : Nat → organism}
    {pop : List organism} {g : RandState} {p1 p2 : organism}
    {res : List organism × RandState}
    (w : Writes n RAND_MAX uninit pop g p1 p2)
    (h : replicate_next_organism n RAND_MAX uninit pop g = some res) :
    res.1 = pop.set (g 2 % n)
      (mutate_child RAND_MAX p1 (recombinant_of RAND_MAX uninit p1 p2 (skip 4 g)).1
        (recombinant_of RAND_MAX uninit p1 p2 (skip 4 g)).2).1 := by
  rw [replicate_of_writes w] at h
  cases h
  rfl

theorem replicate_state {n RAND_MAX : Nat} {uninit : Nat → organism}
    {pop : List organism} {g : RandState} {res : List organism × RandState}
    (h : replicate_next_organism n RAND_MAX uninit pop g = some res) :
    ∃ m, res.2 = skip m g := by
  rcases replicate_cases h with ⟨-, hm⟩ | ⟨p1, p2, w⟩
  · exact hm
  · rw [replicate_of_writes w] at h
    cases h
    obtain ⟨m, hm⟩ := mutate_child_snd RAND_MAX p1
      (recombinant_of RAND_MAX uninit p1 p2 (skip 4 g)).1
      (recombinant_of RAND_MAX uninit p1 p2 (skip 4 g)).2
    have e := (recombinant_of_fields RAND_MAX uninit p1 p2 (skip 4 g)).2.2.2.2
    simp only [e, skip_skip] at hm
    refine ⟨4 + 202 + m, ?_⟩
    simp only [e, skip_skip, hm]

theorem replicate_InUnit {n RAND_MAX : Nat} {uninit : Nat → organism}
    {pop : List organism} {g : RandState} {res : List organism × RandState}
    (hp : ∀ o ∈ pop, InUnit o) (hg : InRange RAND_MAX g)
    (h : replicate_next_organism n RAND_MAX uninit pop g = some res) :
    ∀ o ∈ res.1, InUnit o := by
  rcases replicate_cases h with ⟨e, -⟩ | ⟨p1, p2, w⟩
  · rw [e]; exact hp
  · rw [replicate_writes_fst w h]
    intro o ho
    rcases List.mem_or_eq_of_mem_set ho with ho | rfl
    · exact hp o ho
    · refine mutate_child_InUnit p1 (recombinant_of_InUnit (hp p1 (List.getElem?_mem w.read_1))
        (hp p2 (List.getElem?_mem w.read_2)) w.inherited) ?_
      rw [(recombinant_of_fields RAND_MAX uninit p1 p2 (skip 4 g)).2.2.2.2]
      exact InRange_skip (InRange_skip hg 4) 202

theorem replicate_generation {n RAND_MAX : Nat} {uninit : Nat → organism}
    {pop : List organism} {g : RandState} {res : List organism × RandState} {k : Int}
    (hp : ∀ o ∈ pop, 0 ≤ o.generation ∧ o.generation ≤ k)
    (h : replicate_next_organism n RAND_MAX uninit pop g = some res) :
    ∀ o ∈ res.1, 0 ≤ o.generation ∧ o.generation ≤ k + 1 := by
  rcases replicate_cases h with ⟨e, -⟩ | ⟨p1, p2, w⟩
  · rw [e]
    intro o ho
    exact ⟨(hp o ho).1, by linarith [(hp o ho).2]⟩
  · rw [replicate_writes_fst w h]
    intro o ho
    rcases List.mem_or_eq_of_mem_set ho with ho | rfl
    · exact ⟨(hp o ho).1, by linarith [(hp o ho).2]⟩
    · rw [mutate_child_generation]
      have := hp p1 (List.getElem?_mem w.read_1)
      exact ⟨by linarith [this.1], by linarith [this.2]⟩

theorem run_updates_total {n : Nat} (RAND_MAX : Nat) (uninit : Nat → Nat → organism)
    (hn : 0 < n) (k : Nat) {pop : List organism} (g : RandState) (hlen : pop.length = n) :
    ∃ res, run_updates n RAND_MAX uninit k pop g = some res ∧ res.1.length = n := by
  induction k with
  | zero => exact ⟨(pop, g), rfl, hlen⟩
  | succ k ih =>
    obtain ⟨res, hres, hl⟩ := ih
    obtain ⟨res', hres'⟩ := replicate_total RAND_MAX (uninit k) res.2 hn hl
    refine ⟨res', ?_, (replicate_length hres').trans hl⟩
    simp only [run_updates, hres, hres']

/-- One more iteration of the loop, seen from its result. -/
theorem run_updates_succ {n RAND_MAX : Nat} {uninit : Nat → Nat → organism} {k : Nat}
    {pop : List organism} {g : RandState} {res : List organism × RandState}
    (h : run_updates n RAND_MAX uninit (k + 1) pop g = some res) :
    ∃ mid, run_updates n RAND_MAX uninit k pop g = some mid
      ∧ replicate_next_organism n RAND_MAX (uninit k) mid.1 mid.2 = some res := by
  simp only [run_updates] at h
  cases hm : run_updates n RAND_MAX uninit k pop g with
  | none => simp [hm] at h
  | some mid =>
    rw [hm] at h
    exact ⟨mid, rfl, h⟩

theorem run_updates_invariants {n RAND_MAX : Nat} {uninit : Nat → Nat → organism} (k : Nat)
    {pop : List organism} {g : RandState} {res : List organism × RandState}
    (h : run_updates n RAND_MAX uninit k pop g = some res) :
    (∃ m, res.2 = skip m g)
      ∧ ((∀ o ∈ pop, InUnit o) → InRange RAND_MAX g → ∀ o ∈ res.1, InUnit o)
      ∧ ((∀ o ∈ pop, o.generation = 0) →
          ∀ o ∈ res.1, 0 ≤ o.generation ∧ o.generation ≤ (k : Int)) := by
  induction k generalizing res with
  | zero =>
    simp only [run_updates, Option.some.injEq] at h
    subst h
    refine ⟨⟨0, rfl⟩, fun hp _ => hp, fun hp o ho => ?_⟩
    simp [hp o ho]
  | succ k ih =>
    obtain ⟨mid, hmid, hstep⟩ := run_updates_succ h
    obtain ⟨⟨m, hm⟩, hu, hgen⟩ := ih hmid
    obtain ⟨m', hm'⟩ := replicate_state hstep
    refine ⟨⟨m + m', ?_⟩, fun hp hg => ?_, fun hp => ?_⟩
    · rw [hm', hm, skip_skip]
    · exact replicate_InUnit (hu hp hg) (hm ▸ InRange_skip hg m) hstep
    · have := replicate_generation (hgen hp) hstep
      intro o ho
      have := this o ho
      push_cast
      exact this

theorem foldl_add_eq {T : Type} [AddMonoid T] (list : List T) (a : T) :
    list.foldl (fun acc x => acc + x) a = a + list.sum := by
  induction list generalizing a with
  | nil => simp
  | cons x xs ih => simp [ih, add_assoc]

/-- The accumulation loop computes the sum of the list. -/
theorem sum_eq_list_sum {T : Type} [AddMonoid T] (list : List T) : sum list = list.sum := by
  unfold sum
  rw [foldl_add_eq, zero_add]

/-- Every value the accumulator of `sum` takes over a list of integers in `[0, k]`
lies between 0 and `length * k`. -/
theorem sum_take_bounds (list : List Int) (k : Int) (hk : 0 ≤ k)
    (h : ∀ x ∈ list, 0 ≤ x ∧ x ≤ k) (i : Nat) :
    0 ≤ sum (list.take i) ∧ sum (list.take i) ≤ (list.length : Int) * k := by
  rw [sum_eq_list_sum]
  have hm : ∀ x ∈ list.take i, 0 ≤ x ∧ x ≤ k := fun x hx => h x (List.mem_of_mem_take hx)
  refine ⟨List.sum_nonneg fun x hx => (hm x hx).1, ?_⟩
  have h1 : (list.take i).sum ≤ (list.take i).length • k :=
    List.sum_le_card_nsmul _ _ fun x hx => (hm x hx).2
  have h2 : (list.take i).length ≤ list.length := by
    rw [List.length_take]
    exact Nat.min_le_right _ _
  have h3 : ((list.take i).length : Int) ≤ (list.length : Int) := by exact_mod_cast h2
  calc (list.take i).sum ≤ (list.take i).length • k := h1
    _ = ((list.take i).length : Int) * k := by rw [nsmul_eq_mul]
    _ ≤ (list.length : Int) * k := mul_le_mul_of_nonneg_right h3 hk

/-- C1 (discard purity): when `should_recombine` returns false for the two parent
snapshots the update step samples, the update step returns, and the population
it leaves is the one it was given. -/
theorem discard_purity (n RAND_MAX : Nat) (uninit : Nat → organism)
    (pop : List organism) (g : RandState) (parent_1 parent_2 : organism)
    (hn : 0 < n) (h1 : pop[g 0 % n]? = some parent_1) (h2 : pop[g 1 % n]? = some parent_2)
    (hs : (should_recombine RAND_MAX parent_1 parent_2 (skip 3 g)).1 = false) :
    (replicate_next_organism n RAND_MAX uninit pop g).map Prod.fst = some pop :=
  replicate_of_not_should_recombine RAND_MAX uninit g hn h1 h2 hs

/-- Witness of C1: one organism whose signal is at distance 1 from its preference is
both parents; mate selection fails and the population is returned as it was. -/
theorem discard_purity_witness :
    (0 < 1 ∧ [unmatched][(fun _ : Nat => 0) 0 % 1]? = some unmatched
        ∧ (should_recombine 32767 unmatched unmatched (skip 3 (fun _ => 0))).1 = false)
      ∧ (replicate_next_organism 1 32767 (fun _ => unmatched) [unmatched]
          (fun _ => 0)).map Prod.fst = some [unmatched] :=
  have hs : (should_recombine 32767 unmatched unmatched (skip 3 (fun _ => 0))).1 = false := by
    norm_num [should_recombine, prob_love, unmatched, LOVE_SLOPE, rand_0_to_1, rand, skip]
  ⟨⟨by decide, rfl, hs⟩,
    discard_purity 1 32767 (fun _ => unmatched) [unmatched] (fun _ => 0) unmatched unmatched
      (by decide) rfl rfl hs⟩

/-- C3 (population size invariant): `create_population` returns exactly `n`
organisms; whatever population the update step returns has the length of the one it
was given; and on a population of `n ≥ 1` organisms the update step does return, with
`n` organisms. -/
theorem population_size_invariant :
    (∀ n : Nat, (create_population n).length = n)
      ∧ (∀ (n RAND_MAX : Nat) (uninit : Nat → organism) (pop : List organism) (g : RandState)
          (res : List organism × RandState),
          replicate_next_organism n RAND_MAX uninit pop g = some res →
            res.1.length = pop.length)
      ∧ (∀ (n RAND_MAX : Nat) (uninit : Nat → organism) (pop : List organism) (g : RandState),
          1 ≤ n → pop.length = n →
            ∃ res, replicate_next_organism n RAND_MAX uninit pop g = some res
              ∧ res.1.length = n) := by
  refine ⟨fun n => by simp [create_population], fun n RAND_MAX uninit pop g res h =>
    replicate_length h, ?_⟩
  intro n RAND_MAX uninit pop g hn hlen
  obtain ⟨res, hres⟩ := replicate_total RAND_MAX uninit g hn hlen
  exact ⟨res, hres, (replicate_length hres).trans hlen⟩

/-- Witness of C3 at `n = 4`: the initial population has 4 organisms and the update
step on it returns a population of 4 organisms. -/
theorem population_size_invariant_witness :
    (1 ≤ 4 ∧ (create_population 4).length = 4)
      ∧ ∃ res, replicate_next_organism 4 32767 (fun _ => edge) (create_population 4)
            (fun _ => 0) = some res ∧ res.1.length = 4 :=
  ⟨⟨by decide, population_size_invariant.1 4⟩,
    population_size_invariant.2.2 4 32767 (fun _ => edge) (create_population 4) (fun _ => 0)
      (by decide) (population_size_invariant.1 4)⟩

/-- C4 (self-recombination is loss-free): for a genotype `G` with both positions in
[0,1), `recombine(G, G)` returns, for every pair of draws and whatever the local held,
an organism whose `pref_pos` and `signal_pos` are those of `G`, hence not negative and
not the sentinel -1. -/
theorem self_recombination_loss_free (RAND_MAX : Nat) (uninit G : organism) (g : RandState)
    (hp : 0 ≤ G.pref_pos ∧ G.pref_pos < 1) (hs : 0 ≤ G.signal_pos ∧ G.signal_pos < 1) :
    (recombine RAND_MAX uninit G G g).1.pref_pos = G.pref_pos
      ∧ (recombine RAND_MAX uninit G G g).1.signal_pos = G.signal_pos
      ∧ 0 ≤ (recombine RAND_MAX uninit G G g).1.pref_pos
      ∧ 0 ≤ (recombine RAND_MAX uninit G G g).1.signal_pos
      ∧ (recombine RAND_MAX uninit G G g).1.pref_pos ≠ -1
      ∧ (recombine RAND_MAX uninit G G g).1.signal_pos ≠ -1 := by
  obtain ⟨e1, -, e2, -⟩ := recombine_self_pos RAND_MAX uninit G g
  rw [e1, e2]
  refine ⟨rfl, rfl, hp.1, hs.1, ?_, ?_⟩ <;> intro h <;> linarith [hp.1, hs.1]

/-- Witness of C4: the genotype with `pref_pos = 0.995`, `signal_pos = 0.5`. -/
theorem self_recombination_loss_free_witness :
    (0 ≤ edge.pref_pos ∧ edge.pref_pos < 1)
      ∧ (recombine 32767 unmatched edge edge (fun _ => 0)).1.pref_pos ≠ -1
      ∧ (recombine 32767 unmatched edge edge (fun _ => 0)).1.signal_pos ≠ -1 :=
  have hp : 0 ≤ edge.pref_pos ∧ edge.pref_pos < 1 := by norm_num [edge]
  have hs : 0 ≤ edge.signal_pos ∧ edge.signal_pos < 1 := by norm_num [edge]
  ⟨hp, (self_recombination_loss_free 32767 unmatched edge (fun _ => 0) hp hs).2.2.2.2⟩

/-- C5 (net effect of recombine per locus): `recombine` is the four assignments made
at the interval it draws, and for every pair of parents and every interval
`(s, e)`, for the preference locus and for the signal locus alike: the offspring has
parent_2's position and value if parent_2's position is not inside; otherwise
parent_1's if parent_1's position is inside; otherwise its position is the sentinel
-1.  Hence, for parents whose own positions are not the sentinel, the offspring's
position is the sentinel exactly when parent_1 is outside and parent_2 inside. -/
theorem recombine_net_effect :
    (∀ (RAND_MAX : Nat) (uninit p1 p2 : organism) (g : RandState),
        (recombine RAND_MAX uninit p1 p2 g).1 =
          recombine_at uninit p1 p2 (crossover RAND_MAX g).1.1 (crossover RAND_MAX g).1.2)
      ∧ ∀ (uninit p1 p2 : organism) (s e : ℚ),
        ((is_inside p2.pref_pos s e = false →
            (recombine_at uninit p1 p2 s e).pref_pos = p2.pref_pos
              ∧ (recombine_at uninit p1 p2 s e).pref_value = p2.pref_value)
          ∧ (is_inside p2.pref_pos s e = true → is_inside p1.pref_pos s e = true →
            (recombine_at uninit p1 p2 s e).pref_pos = p1.pref_pos
              ∧ (recombine_at uninit p1 p2 s e).pref_value = p1.pref_value)
          ∧ (is_inside p2.pref_pos s e = true → is_inside p1.pref_pos s e = false →
            (recombine_at uninit p1 p2 s e).pref_pos = -1))
        ∧ ((is_inside p2.signal_pos s e = false →
            (recombine_at uninit p1 p2 s e).signal_pos = p2.signal_pos
              ∧ (recombine_at uninit p1 p2 s e).signal_value = p2.signal_value)
          ∧ (is_inside p2.signal_pos s e = true → is_inside p1.signal_pos s e = true →
            (recombine_at uninit p1 p2 s e).signal_pos = p1.signal_pos
              ∧ (recombine_at uninit p1 p2 s e).signal_value = p1.signal_value)
          ∧ (is_inside p2.signal_pos s e = true → is_inside p1.signal_pos s e = false →
            (recombine_at uninit p1 p2 s e).signal_pos = -1))
        ∧ (p1.pref_pos ≠ -1 → p2.pref_pos ≠ -1 →
            ((recombine_at uninit p1 p2 s e).pref_pos = -1 ↔
              is_inside p1.pref_pos s e = false ∧ is_inside p2.pref_pos s e = true))
        ∧ (p1.signal_pos ≠ -1 → p2.signal_pos ≠ -1 →
            ((recombine_at uninit p1 p2 s e).signal_pos = -1 ↔
              is_inside p1.signal_pos s e = false ∧ is_inside p2.signal_pos s e = true)) := by
  refine ⟨fun _ _ _ _ _ => rfl, fun u p1 p2 s e => ?_⟩
  have hp := recombine_at_pref u p1 p2 s e
  have hs := recombine_at_signal u p1 p2 s e
  refine ⟨hp, hs, fun n1 n2 => ?_, fun n1 n2 => ?_⟩
  · cases h2 : is_inside p2.pref_pos s e
    · simp [(hp.1 h2).1, n2]
    · cases h1 : is_inside p1.pref_pos s e
      · simp [hp.2.2 h2 h1]
      · simp [(hp.2.1 h2 h1).1, n1]
  · cases h2 : is_inside p2.signal_pos s e
    · simp [(hs.1 h2).1, n2]
    · cases h1 : is_inside p1.signal_pos s e
      · simp [hs.2.2 h2 h1]
      · simp [(hs.2.1 h2 h1).1, n1]

/-- Witness of C5 on the interval (0.2, 0.8): parent_1's preference position 0.995 is
outside and parent_2's 0.5 is inside, so the preference locus is lost; both signal
positions 0.5 are inside, so the signal locus is parent_1's. -/
theorem recombine_net_effect_witness :
    (is_inside unmatched.pref_pos (1 / 5) (4 / 5) = true
        ∧ is_inside edge.pref_pos (1 / 5) (4 / 5) = false)
      ∧ (recombine_at choosy_1 edge unmatched (1 / 5) (4 / 5)).pref_pos = -1
      ∧ (recombine_at choosy_1 edge unmatched (1 / 5) (4 / 5)).signal_value
          = edge.signal_value :=
  have h2 : is_inside unmatched.pref_pos (1 / 5) (4 / 5) = true := by
    norm_num [is_inside, unmatched]
  have h1 : is_inside edge.pref_pos (1 / 5) (4 / 5) = false := by
    norm_num [is_inside, edge]
  ⟨⟨h2, h1⟩,
    (recombine_net_effect.2 choosy_1 edge unmatched (1 / 5) (4 / 5)).1.2.2 h2 h1,
    ((recombine_net_effect.2 choosy_1 edge unmatched (1 / 5) (4 / 5)).2.1.2.1
      (by norm_num [is_inside, unmatched]) (by norm_num [is_inside, edge])).2⟩

/-- C6 (is_inside containment): for `start < end` the test is true iff
`start < pos < end`; for `start ≥ end` it is true iff `pos > start` or `pos < end`;
`is_inside(0.5, 0.2, 0.8)` and `is_inside(0.9, 0.8, 0.2)` are true and
`is_inside(0.5, 0.8, 0.2)` is false; for `start = end` it is true iff
`pos ≠ start`. -/
theorem is_inside_containment :
    (∀ pos start stop : ℚ, start < stop →
        (is_inside pos start stop = true ↔ start < pos ∧ pos < stop))
      ∧ (∀ pos start stop : ℚ, start ≥ stop →
        (is_inside pos start stop = true ↔ pos > start ∨ pos < stop))
      ∧ is_inside (1 / 2) (1 / 5) (4 / 5) = true
      ∧ is_inside (9 / 10) (4 / 5) (1 / 5) = true
      ∧ is_inside (1 / 2) (4 / 5) (1 / 5) = false
      ∧ (∀ pos start : ℚ, is_inside pos start start = true ↔ pos ≠ start) := by
  refine ⟨fun pos start stop h => ?_, fun pos start stop h => ?_, ?_, ?_, ?_,
    fun pos start => ?_⟩
  · rw [is_inside_iff, if_pos h]
  · rw [is_inside_iff, if_neg (not_lt.mpr h)]
  · norm_num [is_inside]
  · norm_num [is_inside]
  · norm_num [is_inside]
  · rw [is_inside_iff, if_neg (lt_irrefl start)]
    constructor
    · rintro (h | h)
      · exact ne_of_gt h
      · exact ne_of_lt h
    · intro h
      rcases lt_or_gt_of_ne h with h | h
      · exact Or.inr h
      · exact Or.inl h

/-- Witness of C6: both branches at concrete intervals. -/
theorem is_inside_containment_witness :
    ((1 / 5 : ℚ) < 4 / 5 ∧ (is_inside (1 / 2) (1 / 5) (4 / 5) = true ↔
        (1 / 5 : ℚ) < 1 / 2 ∧ (1 / 2 : ℚ) < 4 / 5))
      ∧ ((4 / 5 : ℚ) ≥ 1 / 5 ∧ (is_inside (9 / 10) (4 / 5) (1 / 5) = true ↔
        (9 / 10 : ℚ) > 4 / 5 ∨ (9 / 10 : ℚ) < 1 / 5)) :=
  ⟨⟨by norm_num, is_inside_containment.1 (1 / 2) (1 / 5) (4 / 5) (by norm_num)⟩,
    ⟨by norm_num, is_inside_containment.2.1 (9 / 10) (4 / 5) (1 / 5) (by norm_num)⟩⟩

/-- C7 (mutation range), evaluated: with `U = 0`, `mutate_pos(0.005)` returns 0 as the
claim says; but `mutate_pos(0.995)` with `rand() = RAND_MAX` (`U = 1`, for
`RAND_MAX` 32767 and 2147483647), and `mutate_pos(6520635/6553400)` with
`rand() = 32766 < RAND_MAX = 32767` (`U < 1`), compute `new_pos = 1`, which
`new_pos > 1` does not wrap: the result is 1, outside [0,1). -/
theorem mutate_pos_reaches_one :
    (mutate_pos 32767 (1 / 200) (fun _ => 0)).1 = 0
      ∧ ((0 : ℚ) ≤ 199 / 200 ∧ (199 / 200 : ℚ) < 1)
      ∧ (mutate_pos 32767 (199 / 200) (fun _ => 32767)).1 = 1
      ∧ (mutate_pos 2147483647 (199 / 200) (fun _ => 2147483647)).1 = 1
      ∧ ((0 : ℚ) ≤ 6520635 / 6553400 ∧ (6520635 / 6553400 : ℚ) < 1)
      ∧ (mutate_pos 32767 (6520635 / 6553400) (fun _ => 32766)).1 = 1 := by
  refine ⟨?_, by norm_num, ?_, ?_, by norm_num, ?_⟩ <;>
    norm_num [mutate_pos, rand_0_to_1, rand, POS_MUT_EFFECT]

/-- C9 (prob_love is non-increasing in the absolute difference): if
`|X.pref_value - Y.signal_value| ≤ |X'.pref_value - Y'.signal_value|` then
`prob_love(X, Y) ≥ prob_love(X', Y')`. -/
theorem prob_love_antitone (X Y X' Y' : organism)
    (h : |X.pref_value - Y.signal_value| ≤ |X'.pref_value - Y'.signal_value|) :
    prob_love X Y ≥ prob_love X' Y' := by
  rw [prob_love_eq_max, prob_love_eq_max]
  exact max_le_max le_rfl (by linarith)

/-- Witness of C9: difference 0 against difference 0.2. -/
theorem prob_love_antitone_witness :
    |edge.pref_value - edge.signal_value| ≤ |choosy_1.pref_value - choosy_2.signal_value|
      ∧ prob_love edge edge ≥ prob_love choosy_1 choosy_2 :=
  have h : |edge.pref_value - edge.signal_value|
      ≤ |choosy_1.pref_value - choosy_2.signal_value| := by
    norm_num [edge, choosy_1, choosy_2, abs_of_neg]
  ⟨h, prob_love_antitone edge edge choosy_1 choosy_2 h⟩

/-- C10 (mate selection always fails for mismatched pairs): for parents `A`, `B`
whose two cross-differences are each at least 1/8, the joint probability
`prob_love(A,B) * prob_love(B,A)` is 0, `should_recombine(A, B)` is false for every
draw, and an update step that samples `A` and `B` as its parents returns the
population it was given. -/
theorem mismatched_pair_never_mates (A B : organism)
    (hAB : 1 / 8 ≤ |A.pref_value - B.signal_value|)
    (hBA : 1 / 8 ≤ |B.pref_value - A.signal_value|) :
    prob_love A B * prob_love B A = 0
      ∧ (∀ (RAND_MAX : Nat) (g : RandState), (should_recombine RAND_MAX A B g).1 = false)
      ∧ (∀ (n RAND_MAX : Nat) (uninit : Nat → organism) (pop : List organism) (g : RandState),
          0 < n → pop[g 0 % n]? = some A → pop[g 1 % n]? = some B →
            (replicate_next_organism n RAND_MAX uninit pop g).map Prod.fst = some pop) := by
  have h0 : prob_love A B * prob_love B A = 0 := by
    rw [prob_love_eq_zero hAB, prob_love_eq_zero hBA, mul_zero]
  refine ⟨h0, fun RAND_MAX g => should_recombine_of_prob_zero RAND_MAX g h0, ?_⟩
  intro n RAND_MAX uninit pop g hn h1 h2
  exact replicate_of_not_should_recombine RAND_MAX uninit g hn h1 h2
    (should_recombine_of_prob_zero RAND_MAX _ h0)

/-- Witness of C10: two parents whose cross-differences are both exactly 0.2, in a
population of two, sampled as parent 1 and parent 2. -/
theorem mismatched_pair_never_mates_witness :
    (|choosy_1.pref_value - choosy_2.signal_value| = 1 / 5
        ∧ |choosy_2.pref_value - choosy_1.signal_value| = 1 / 5)
      ∧ prob_love choosy_1 choosy_2 * prob_love choosy_2 choosy_1 = 0
      ∧ (should_recombine 32767 choosy_1 choosy_2 (fun _ => 0)).1 = false
      ∧ (replicate_next_organism 2 32767 (fun _ => edge) [choosy_1, choosy_2]
          (fun i => i)).map Prod.fst = some [choosy_1, choosy_2] :=
  have d1 : |choosy_1.pref_value - choosy_2.signal_value| = 1 / 5 := by
    norm_num [choosy_1, choosy_2, abs_of_neg]
  have d2 : |choosy_2.pref_value - choosy_1.signal_value| = 1 / 5 := by
    norm_num [choosy_1, choosy_2, abs_of_pos]
  have t := mismatched_pair_never_mates choosy_1 choosy_2
    (by rw [d1]; norm_num) (by rw [d2]; norm_num)
  ⟨⟨d1, d2⟩, t.1, t.2.1 32767 (fun _ => 0),
    t.2.2 2 32767 (fun _ => edge) [choosy_1, choosy_2] (fun i => i) (by decide) rfl rfl⟩

/-- C16 (the 100 self-recombination rounds are a no-op on the genotype): for every
organism `R` and every draws, the organism left by the loop
`recombinant = recombine(recombinant, recombinant)` run 100 times on `R` has the
`pref_pos`, `pref_value`, `signal_pos` and `signal_value` of `R`; so it fails the guard
on lost loci if and only if `R` does, and carries the sentinel on a locus if and only
if `R` does. -/
theorem self_rounds_are_noop (RAND_MAX : Nat) (uninit : Nat → organism) (R : organism)
    (g : RandState) :
    (self_recombine RAND_MAX uninit 100 R g).1.pref_pos = R.pref_pos
      ∧ (self_recombine RAND_MAX uninit 100 R g).1.pref_value = R.pref_value
      ∧ (self_recombine RAND_MAX uninit 100 R g).1.signal_pos = R.signal_pos
      ∧ (self_recombine RAND_MAX uninit 100 R g).1.signal_value = R.signal_value
      ∧ (((self_recombine RAND_MAX uninit 100 R g).1.pref_pos < 0
          ∨ (self_recombine RAND_MAX uninit 100 R g).1.signal_pos < 0)
        ↔ (R.pref_pos < 0 ∨ R.signal_pos < 0))
      ∧ (((self_recombine RAND_MAX uninit 100 R g).1.pref_pos = -1
          ∨ (self_recombine RAND_MAX uninit 100 R g).1.signal_pos = -1)
        ↔ (R.pref_pos = -1 ∨ R.signal_pos = -1)) := by
  rw [self_recombine_eq]
  exact ⟨rfl, rfl, rfl, rfl, Iff.rfl, Iff.rfl⟩

/-- C17 (crossover end), evaluated where it fails: with `RAND_MAX = 32767` and the
draws 1 and 32766, `crossover_start = 1/32767` and `crossover_size = 32766/32767` are
both in [0,1), their sum is 1, which does not exceed 1, and `crossover_end` is 1. -/
theorem crossover_end_reaches_one :
    (0 ≤ (rand_0_to_1 32767 closing_draws).1 ∧ (rand_0_to_1 32767 closing_draws).1 < 1)
      ∧ (0 ≤ (rand_0_to_1 32767 (skip 1 closing_draws)).1
        ∧ (rand_0_to_1 32767 (skip 1 closing_draws)).1 < 1)
      ∧ (crossover 32767 closing_draws).1.2 = 1
      ∧ ¬ ((crossover 32767 closing_draws).1.2 < 1) := by
  refine ⟨?_, ?_, ?_, ?_⟩ <;>
    norm_num [crossover, rand_0_to_1, rand, skip, closing_draws]

/-- C17 as amended: for `crossover_start` and `crossover_size` in [0,1), the
`crossover_end` that `recombine` computes satisfies `0 ≤ crossover_end ≤ 1`, and it is
below 1 unless `crossover_start + crossover_size` is exactly 1. -/
theorem crossover_end_range (RAND_MAX : Nat) (g : RandState)
    (hs : (rand_0_to_1 RAND_MAX g).1 < 1) (hz : (rand_0_to_1 RAND_MAX (skip 1 g)).1 < 1) :
    (crossover RAND_MAX g).1.1 = (rand_0_to_1 RAND_MAX g).1
      ∧ 0 ≤ (crossover RAND_MAX g).1.2
      ∧ (crossover RAND_MAX g).1.2 ≤ 1
      ∧ ((crossover RAND_MAX g).1.2 = 1 ↔
          (rand_0_to_1 RAND_MAX g).1 + (rand_0_to_1 RAND_MAX (skip 1 g)).1 = 1) := by
  have s0 := rand_0_to_1_nonneg RAND_MAX g
  have z0 := rand_0_to_1_nonneg RAND_MAX (skip 1 g)
  refine ⟨rfl, ?_⟩
  unfold crossover
  simp only [rand_0_to_1_snd]
  split_ifs with h
  · refine ⟨by linarith, by linarith, ?_⟩
    constructor <;> intro e <;> linarith
  · refine ⟨by linarith, by linarith, Iff.rfl⟩

/-- Witness of C17 as amended: both draws 0 with `RAND_MAX = 32767`. -/
theorem crossover_end_range_witness :
    ((rand_0_to_1 32767 (fun _ => 0)).1 < 1)
      ∧ 0 ≤ (crossover 32767 (fun _ => 0)).1.2 ∧ (crossover 32767 (fun _ => 0)).1.2 ≤ 1 :=
  have h : (rand_0_to_1 32767 (fun _ => 0)).1 < 1 := by norm_num [rand_0_to_1, rand]
  ⟨h, (crossover_end_range 32767 (fun _ => 0) h
      (by norm_num [rand_0_to_1, rand, skip])).2.1,
    (crossover_end_range 32767 (fun _ => 0) h
      (by norm_num [rand_0_to_1, rand, skip])).2.2.1⟩

/-- C18 (the update step is total with in-range indexing): for `n ≥ 1`, a population of
`n` organisms and `RAND_MAX > 0`: `random_pos()` returns `rand() % n`, which is below
`n`; the three indices the update step uses are inside the population and the update
step returns; the quotient of `rand_0_to_1` times `RAND_MAX` is the value drawn (the
divisor is not zero); and each of the five means of the report times `n` is the sum it
divides (the divisor `list.size()` is `n`, not zero). -/
theorem update_step_total (n RAND_MAX : Nat) (uninit : Nat → organism)
    (pop : List organism) (g : RandState) (hn : 1 ≤ n) (hlen : pop.length = n)
    (hR : 0 < RAND_MAX) :
    (random_pos n g = some (g 0 % n, skip 1 g) ∧ g 0 % n < n)
      ∧ (g 0 % n < pop.length ∧ g 1 % n < pop.length ∧ g 2 % n < pop.length)
      ∧ (∃ res, replicate_next_organism n RAND_MAX uninit pop g = some res)
      ∧ ((RAND_MAX : ℚ) ≠ 0 ∧ (rand_0_to_1 RAND_MAX g).1 * (RAND_MAX : ℚ) = (g 0 : ℚ))
      ∧ (((get_generations pop).length = n ∧ ((get_generations pop).length : ℚ) ≠ 0)
        ∧ mean (fun z : Int => (z : ℚ)) (get_generations pop) * (n : ℚ)
            = ((sum (get_generations pop) : Int) : ℚ)
        ∧ mean id (get_pref_pos pop) * (n : ℚ) = sum (get_pref_pos pop)
        ∧ mean id (get_pref_values pop) * (n : ℚ) = sum (get_pref_values pop)
        ∧ mean id (get_signal_pos pop) * (n : ℚ) = sum (get_signal_pos pop)
        ∧ mean id (get_signal_values pop) * (n : ℚ) = sum (get_signal_values pop)) := by
  have hn0 : (n : ℚ) ≠ 0 := by exact_mod_cast (Nat.pos_iff_ne_zero.mp hn)
  have hR0 : (RAND_MAX : ℚ) ≠ 0 := by exact_mod_cast (Nat.pos_iff_ne_zero.mp hR)
  refine ⟨⟨random_pos_eq hn g, Nat.mod_lt _ hn⟩, ?_, replicate_total RAND_MAX uninit g hn hlen,
    ⟨hR0, ?_⟩, ⟨?_, ?_⟩, ?_, ?_, ?_, ?_, ?_⟩
  · rw [hlen]
    exact ⟨Nat.mod_lt _ hn, Nat.mod_lt _ hn, Nat.mod_lt _ hn⟩
  · rw [rand_0_to_1_fst, div_mul_cancel₀ _ hR0]
  · simp [get_generations, hlen]
  · simpa [get_generations, hlen] using hn0
  all_goals
    unfold mean
    simp only [get_generations, get_pref_pos, get_pref_values, get_signal_pos,
      get_signal_values, List.length_map, hlen, id]
    rw [div_mul_cancel₀ _ hn0]

/-- Witness of C18: the initial population of 4 organisms, `RAND_MAX = 32767`. -/
theorem update_step_total_witness :
    (1 ≤ 4 ∧ (create_population 4).length = 4 ∧ 0 < 32767)
      ∧ (∃ res, replicate_next_organism 4 32767 (fun _ => edge) (create_population 4)
          (fun i => i) = some res)
      ∧ (rand_0_to_1 32767 (fun i => i)).1 * ((32767 : Nat) : ℚ)
          = (((fun i : Nat => i) 0 : Nat) : ℚ) :=
  have hl : (create_population 4).length = 4 := by simp [create_population]
  ⟨⟨by decide, hl, by decide⟩,
    (update_step_total 4 32767 (fun _ => edge) (create_population 4) (fun i => i)
      (by decide) hl (by decide)).2.2.1,
    (update_step_total 4 32767 (fun _ => edge) (create_population 4) (fun i => i)
      (by decide) hl (by decide)).2.2.2.1.2⟩

/-- C19 (reachable-state position invariant): for `n ≥ 1` and draws that `rand()` can
return (so `rand_0_to_1()` is in [0,1]), any number `k` of update steps from
`create_population` returns, and in the population reached every organism's `pref_pos`
and `signal_pos` lie in the closed interval [0,1]; so for any two organisms of it read
as parents the sentinel-parent guard of the update step is false. -/
theorem reachable_positions (n RAND_MAX : Nat) (uninit : Nat → Nat → organism)
    (g : RandState) (k : Nat) (hn : 1 ≤ n) (hg : InRange RAND_MAX g) :
    ∃ res, run_updates n RAND_MAX uninit k (create_population n) g = some res
      ∧ (∀ o ∈ res.1, 0 ≤ o.pref_pos ∧ o.pref_pos ≤ 1 ∧ 0 ≤ o.signal_pos ∧ o.signal_pos ≤ 1)
      ∧ (∀ parent_1 ∈ res.1, ∀ parent_2 ∈ res.1,
          ¬ (parent_1.pref_pos < 0 ∨ parent_1.signal_pos < 0
            ∨ parent_2.pref_pos < 0 ∨ parent_2.signal_pos < 0)) := by
  obtain ⟨res, hres, -⟩ := run_updates_total RAND_MAX uninit hn k g
    (show (create_population n).length = n by simp [create_population])
  have h0 : ∀ o ∈ create_population n, InUnit o := by
    intro o ho
    rw [create_population, List.mem_replicate] at ho
    rw [ho.2]
    norm_num [InUnit, INIT_PREF_POS, INIT_SIGNAL_POS]
  have hu := (run_updates_invariants k hres).2.1 h0 hg
  refine ⟨res, hres, hu, fun p1 h1 p2 h2 => ?_⟩
  have u1 := hu p1 h1
  have u2 := hu p2 h2
  unfold InUnit at u1 u2
  push_neg
  exact ⟨u1.1, u1.2.2.1, u2.1, u2.2.2.1⟩

/-- Witness of C19: the source's `N = 100` and `UPDATES` update steps, every draw 0. -/
theorem reachable_positions_witness :
    (1 ≤ N ∧ InRange 32767 (fun _ => 0))
      ∧ ∃ res, run_updates N 32767 (fun _ _ => edge) UPDATES (create_population N)
            (fun _ => 0) = some res
          ∧ ∀ o ∈ res.1, 0 ≤ o.pref_pos ∧ o.pref_pos ≤ 1 ∧ 0 ≤ o.signal_pos
            ∧ o.signal_pos ≤ 1 :=
  have hn : 1 ≤ N := by decide
  have hg : InRange 32767 (fun _ => 0) := fun _ => Nat.zero_le _
  have t := reachable_positions N 32767 (fun _ _ => edge) (fun _ => 0) UPDATES hn hg
  ⟨⟨hn, hg⟩, t.elim fun res h => ⟨res, h.1, h.2.1⟩⟩

/-- C20 (generation counters are bounded by the number of update steps): for `n ≥ 1`,
`k` update steps from `create_population` return, every organism then has
`0 ≤ generation ≤ k`, and every value the accumulator of `sum` takes over
`get_generations(pop)` lies between 0 and `n * k`; so for `n = N = 100` and
`k ≤ UPDATES = 10,000,000` the accumulator is at most 1,000,000,000, below `2^31`. -/
theorem generation_bound (n RAND_MAX : Nat) (uninit : Nat → Nat → organism)
    (g : RandState) (k : Nat) (hn : 1 ≤ n) :
    ∃ res, run_updates n RAND_MAX uninit k (create_population n) g = some res
      ∧ (∀ o ∈ res.1, 0 ≤ o.generation ∧ o.generation ≤ (k : Int))
      ∧ (∀ i, 0 ≤ sum ((get_generations res.1).take i)
          ∧ sum ((get_generations res.1).take i) ≤ (n : Int) * (k : Int))
      ∧ (n = N → k ≤ UPDATES →
          (∀ i, sum ((get_generations res.1).take i) ≤ 1000000000)
            ∧ sum (get_generations res.1) ≤ 1000000000
            ∧ (1000000000 : Int) < 2 ^ 31) := by
  obtain ⟨res, hres, hlen⟩ := run_updates_total RAND_MAX uninit hn k g
    (show (create_population n).length = n by simp [create_population])
  have h0 : ∀ o ∈ create_population n, o.generation = 0 := by
    intro o ho
    rw [create_population, List.mem_replicate] at ho
    rw [ho.2]
  have hgen := (run_updates_invariants k hres).2.2 h0
  have hl : (get_generations res.1).length = n := by simp [get_generations, hlen]
  have hb : ∀ i, 0 ≤ sum ((get_generations res.1).take i)
      ∧ sum ((get_generations res.1).take i) ≤ (n : Int) * (k : Int) := by
    intro i
    have := sum_take_bounds (get_generations res.1) (k : Int) (Int.natCast_nonneg k)
      (fun x hx => by
        rw [get_generations, List.mem_map] at hx
        obtain ⟨o, ho, rfl⟩ := hx
        exact hgen o ho) i
    rw [hl] at this
    exact this
  refine ⟨res, hres, hgen, hb, fun hN hk => ?_⟩
  have hprod : (n : Int) * (k : Int) ≤ 1000000000 := by
    subst hN
    have : (k : Int) ≤ 10000000 := by exact_mod_cast hk
    have hN' : ((N : Nat) : Int) = 100 := rfl
    rw [hN']
    linarith
  refine ⟨fun i => le_trans (hb i).2 hprod, ?_, by norm_num⟩
  have := (hb (get_generations res.1).length).2
  rw [List.take_length] at this
  exact le_trans this hprod

/-- Witness of C20: the source's `N = 100` and `UPDATES` update steps. -/
theorem generation_bound_witness :
    1 ≤ N
      ∧ ∃ res, run_updates N 32767 (fun _ _ => edge) UPDATES (create_population N)
            (fun i => i) = some res
          ∧ (∀ o ∈ res.1, 0 ≤ o.generation ∧ o.generation ≤ (UPDATES : Int))
          ∧ sum (get_generations res.1) ≤ 1000000000 :=
  have hn : 1 ≤ N := by decide
  have t := generation_bound N 32767 (fun _ _ => edge) (fun i => i) UPDATES hn
  ⟨hn, t.elim fun res h => ⟨res, h.1, h.2.1, (h.2.2.2 rfl (le_refl _)).2.1⟩⟩

end SignalPref
